import Mathlib

/-!
Verification of the message-exchange core of the meta-ai-api client.

The Python sources under src/meta_ai_api are shallowly embedded:
decoded JSON values become an inductive type, the dict/attribute
semantics of the chained .get calls are made explicit in an Except
monad (a .get on a non-mapping value raises AttributeError, len() on a
scalar raises TypeError), network transports become parameters, and
the retry loop of MessageProcessor becomes a fuelled recursion bounded
by MAX_RETRIES.
-/

namespace MetaAI

/-- Decoded JSON values, the shape json.loads produces. Mappings are
modelled as association lists (first binding wins on lookup; concrete
inputs never repeat keys). -/
inductive Json where
| null : Json
| bool (b : Bool) : Json
| num (n : Int) : Json
| str (s : String) : Json
| arr (elems : List Json) : Json
| obj (fields : List (String × Json)) : Json

/-- Python truthiness of a decoded value: None, False, 0, "", [], {}
are falsy, everything else truthy. -/
def Json.truthy : Json → Bool
| .null => false
| .bool b => b
| .num n => n != 0
| .str s => s != ""
| .arr [] => false
| .arr (_ :: _) => true
| .obj [] => false
| .obj (_ :: _) => true

/-- Association-list lookup underlying dict access. -/
def Json.lookup : List (String × Json) → String → Option Json
| [], _ => none
| (k, v) :: rest, key => if k = key then some v else Json.lookup rest key

/-- Python exceptions the embedded code can raise, plus the terminal
error the retry controller raises when its budget is exhausted. -/
inductive PyErr where
| attributeError : PyErr
| typeError : PyErr
| retryExhausted : PyErr
deriving DecidableEq

/-- dict.get(key, default): returns the binding or the default on a
mapping, and raises AttributeError on any non-mapping receiver, as
Python does. -/
def Json.getD (j : Json) (key : String) (dflt : Json) : Except PyErr Json :=
match j with
| .obj fields => .ok ((Json.lookup fields key).getD dflt)
| _ => .error .attributeError

/-- len(): defined on strings, lists and mappings; TypeError on
scalars. -/
def Json.pyLen : Json → Except PyErr Nat
| .str s => .ok s.length
| .arr l => .ok l.length
| .obj l => .ok l.length
| _ => .error .typeError

/-- Iteration (for x in j): a list yields its elements, a mapping its
keys, a string its characters (as one-character strings); scalars
raise TypeError. -/
def Json.pyIter : Json → Except PyErr (List Json)
| .arr l => .ok l
| .obj l => .ok (l.map (fun kv => Json.str kv.fst))
| .str s => .ok (s.toList.map (fun c => Json.str (String.mk [c])))
| _ => .error .typeError

/-- Does this value equal the Python string s (the == test against a
string literal)? -/
def Json.isStr (j : Json) (s : String) : Bool :=
match j with
| .str t => t = s
| _ => false

/-! ## MediaExtractor (media_extractor.py) -/

/-- One extracted media descriptor: the dict built at
media_extractor.py lines 38-42. The fields keep whatever JSON value
the wire carried. -/
structure MediaItem where
url : Json
media_type : Json
prompt : Json

/-- The body of the inner loop of extract_media (lines 37-46): build
the media_info dict and keep it only when its url is truthy. -/
def extractFromMedia (media : Json) : Except PyErr (List MediaItem) :=
match media.getD "uri" .null with
| .error e => .error e
| .ok url =>
  match media.getD "media_type" .null with
  | .error e => .error e
  | .ok ty =>
    match media.getD "prompt" .null with
    | .error e => .error e
    | .ok prompt => if url.truthy then .ok [⟨url, ty, prompt⟩] else .ok []

/-- Run f over every element, concatenating the results; an error in
any element aborts the whole loop, as an uncaught exception would. -/
def collectM (f : Json → Except PyErr (List MediaItem)) : List Json → Except PyErr (List MediaItem)
| [] => .ok []
| x :: xs =>
  match f x with
  | .error e => .error e
  | .ok h =>
    match collectM f xs with
    | .error e => .error e
    | .ok t => .ok (h ++ t)

/-- The body of the outer loop of extract_media (lines 34-46): read a
media_set's imagine_media and collect the items with a truthy url. -/
def extractFromSet (media_set : Json) : Except PyErr (List MediaItem) :=
match media_set.getD "imagine_media" (.arr []) with
| .error e => .error e
| .ok imagine_media =>
  match imagine_media.pyIter with
  | .error e => .error e
  | .ok ims => collectM extractFromMedia ims

/-- MediaExtractor.extract_media (media_extractor.py lines 11-48). -/
def extract_media (bot_response_message : Json) : Except PyErr (List MediaItem) :=
match bot_response_message.getD "imagine_card" (.obj []) with
| .error e => .error e
| .ok imagine_card =>
  if !imagine_card.truthy then .ok []
  else
    match imagine_card.getD "session" (.obj []) with
    | .error e => .error e
    | .ok session =>
      if !session.truthy then .ok []
      else
        match session.getD "media_sets" (.arr []) with
        | .error e => .error e
        | .ok media_sets =>
          match media_sets.pyIter with
          | .error e => .error e
          | .ok sets => collectM extractFromSet sets

/-- The any(...) generator of has_media (lines 84-86): short-circuits
at the first media_set whose imagine_media is truthy, so later sets
are never inspected. -/
def anyImagineMedia : List Json → Except PyErr Bool
| [] => .ok false
| s :: rest =>
  match s.getD "imagine_media" (.arr []) with
  | .error e => .error e
  | .ok im => if im.truthy then .ok true else anyImagineMedia rest

/-- MediaExtractor.has_media (media_extractor.py lines 64-86). The
`and` short-circuits: when len(media_sets) == 0 the generator inside
any() is never consumed. -/
def has_media (bot_response_message : Json) : Except PyErr Bool :=
match bot_response_message.getD "imagine_card" (.obj []) with
| .error e => .error e
| .ok imagine_card =>
  if !imagine_card.truthy then .ok false
  else
    match imagine_card.getD "session" (.obj []) with
    | .error e => .error e
    | .ok session =>
      if !session.truthy then .ok false
      else
        match session.getD "media_sets" (.arr []) with
        | .error e => .error e
        | .ok media_sets =>
          match media_sets.pyLen with
          | .error e => .error e
          | .ok n =>
            if n = 0 then .ok false
            else
              match media_sets.pyIter with
              | .error e => .error e
              | .ok sets => anyImagineMedia sets

/-! ## Conversation state and stream decoding (message_processor.py) -/

/-- The two continuity identifiers MessageProcessor keeps
(message_processor.py lines 62-63). -/
structure ConvState where
external_conversation_id : Option String
offline_threading_id : Option String
deriving DecidableEq

/-- State at client construction (lines 62-63): both identifiers
absent. -/
def initialConvState : ConvState := ⟨none, none⟩

/-- MessageProcessor.start_new_conversation (lines 272-275). -/
def start_new_conversation (_st : ConvState) : ConvState := ⟨none, none⟩

/-- Python truthiness of an optional string attribute: None and the
empty string are falsy. -/
def pyFalsyOptStr : Option String → Bool
| none => true
| some s => s == ""

/-- Python str.split on a single-character separator, at the level of
character lists: never returns an empty list, and adjacent separators
produce empty segments, exactly as str.split does with an explicit
separator. -/
def splitOnChar (c : Char) : List Char → List (List Char)
| [] => [[]]
| x :: xs =>
  match splitOnChar c xs with
  | [] => [[]]
  | g :: gs => if x = c then [] :: g :: gs else (x :: g) :: gs

/-- Python s.split("_") for the one-character separator the code
uses. -/
def pySplit (s : String) (c : Char) : List String :=
(splitOnChar c s.toList).map String.mk

/-- The id-update block of _extract_last_response (lines 204-210):
when chat_id is truthy and contains an underscore, split on every
underscore and store parts[0] and parts[1]. A truthy non-string
receiver of the membership test raises (containment on a truthy
container id is folded into the same raising branch; no claim touches
that corner). -/
def updateConversationIds (chat_id : Json) (st : ConvState) : Except PyErr ConvState :=
match chat_id with
| .str s =>
  if s != "" && s.toList.contains '_' then
    let parts := pySplit s '_'
    if parts.length ≥ 2 then
      .ok ⟨some (parts.getD 0 ""), some (parts.getD 1 "")⟩
    else .ok st
  else .ok st
| j => if j.truthy then .error .typeError else .ok st

/-- The running state of the scan in _extract_last_response: the
conversation identifiers plus the latest line seen with
streaming_state == OVERALL_DONE. -/
structure ScanState where
conv : ConvState
last : Option Json

/-- The bot_response_message of a decoded line: the .get chain of
lines 198-202 (and the identical chains of _extract_data and
format_response). -/
def botResponseMessage (json_line : Json) : Except PyErr Json :=
match json_line.getD "data" (.obj []) with
| .error e => .error e
| .ok d =>
  match d.getD "node" (.obj []) with
  | .error e => .error e
  | .ok node => node.getD "bot_response_message" (.obj [])

/-- One iteration of the loop of _extract_last_response (lines
193-215) applied to a decoded line. -/
def processLine (json_line : Json) (s : ScanState) : Except PyErr ScanState :=
match botResponseMessage json_line with
| .error e => .error e
| .ok brm =>
  match brm.getD "id" .null with
  | .error e => .error e
  | .ok chat_id =>
    match updateConversationIds chat_id s.conv with
    | .error e => .error e
    | .ok conv =>
      match brm.getD "streaming_state" .null with
      | .error e => .error e
      | .ok streaming_state =>
        if streaming_state.isStr "OVERALL_DONE" then .ok ⟨conv, some json_line⟩
        else .ok ⟨conv, s.last⟩

/-- The loop of _extract_last_response over the split body. A body
line is (some j) when json.loads succeeded and none when the line was
blank or failed to parse; both are skipped by the loop (lines
190-196). An exception aborts the loop but the identifiers already
updated stay mutated. -/
def scanLines : List (Option Json) → ScanState → (Except PyErr Unit) × ScanState
| [], s => (.ok (), s)
| none :: rest, s => scanLines rest s
| some j :: rest, s =>
  match processLine j s with
  | .ok s2 => scanLines rest s2
  | .error e => (.error e, s)

/-- MessageProcessor._extract_last_response (lines 185-217): returns
the last terminal line (if any) and the possibly mutated conversation
state. -/
def extractLastResponse (lines : List (Option Json)) (conv : ConvState) : (Except PyErr (Option Json)) × ConvState :=
match scanLines lines ⟨conv, none⟩ with
| (.ok _, s) => (.ok s.last, s.conv)
| (.error e, s) => (.error e, s.conv)

/-- Follows the spec's words (section 4.3): a decoded line is terminal
when its data.node.bot_response_message.streaming_state equals
OVERALL_DONE. Used to state which line the buffered result is built
from. -/
def isTerminalLine (j : Json) : Bool :=
match botResponseMessage j with
| .error _ => false
| .ok brm =>
  match brm.getD "streaming_state" .null with
  | .error _ => false
  | .ok ss => ss.isStr "OVERALL_DONE"

/-- Follows the spec's words: the most recent decodable line that is
terminal. -/
def lastTerminalLine (lines : List (Option Json)) : Option Json :=
(lines.filterMap id).foldl (fun acc j => if isTerminalLine j then some j else acc) none

/-- Total field access used only by the spec-modelled
format_response: a non-mapping receiver yields the default. -/
def Json.objGetD (j : Json) (key : String) (dflt : Json) : Json :=
match j with
| .obj fields => (Json.lookup fields key).getD dflt
| _ => dflt

/-- Modelled from the spec: format_response lives in the repository's
utils module, which is not present under src/. Per the spec's
ResponseEvent (section 3) and line shape (section 6), the reply text
is carried in the text field of the decoded line's
bot_response_message, so the model reads
data.node.bot_response_message.text as the reply string, defaulting to
the empty string. -/
def format_response (json_line : Json) : String :=
match (((json_line.objGetD "data" (.obj [])).objGetD "node"
    (.obj [])).objGetD "bot_response_message" (.obj [])).objGetD "text" .null with
| .str s => s
| _ => ""

/-- The enriched result returned to the caller (_extract_data lines
252-256). -/
structure EnrichedResult where
message : String
sources : List Json
media : List MediaItem

/-- MessageProcessor._extract_data (lines 234-256). The secondary
network request for sources is abstracted by an oracle giving, for the
fetch_id value, what source_fetcher.fetch_sources returns (or
raises). -/
def extractData (fetchOracle : Json → Except PyErr (List Json)) (json_line : Json) : Except PyErr EnrichedResult :=
match botResponseMessage json_line with
| .error e => .error e
| .ok brm =>
  match brm.getD "fetch_id" .null with
  | .error e => .error e
  | .ok fetch_id =>
    match (if fetch_id.truthy then fetchOracle fetch_id else .ok []) with
    | .error e => .error e
    | .ok sources =>
      match extract_media brm with
      | .error e => .error e
      | .ok media => .ok ⟨format_response json_line, sources, media⟩

/-- Outcome of one buffered attempt before the retry controller acts:
either no terminal line was found (retry) or a result was produced. -/
inductive RegularOutcome where
| needsRetry : RegularOutcome
| result (r : EnrichedResult) : RegularOutcome

/-- MessageProcessor._handle_regular_response (lines 156-164). -/
def handleRegularResponse (fetchOracle : Json → Except PyErr (List Json)) (lines : List (Option Json)) (conv : ConvState) : (Except PyErr RegularOutcome) × ConvState :=
match extractLastResponse lines conv with
| (.ok none, conv2) => (.ok .needsRetry, conv2)
| (.ok (some t), conv2) =>
  match extractData fetchOracle t with
  | .ok r => (.ok (.result r), conv2)
  | .error e => (.error e, conv2)
| (.error e, conv2) => (.error e, conv2)

/-! ## Transport, retry controller and the full buffered send -/

/-- config.py lines 11-12. -/
def MAX_RETRIES : Nat := 3

/-- config.py lines 11-12. -/
def RETRY_DELAY : Nat := 3

/-- A requests.Session as far as the claims observe it: its cookie jar
and its proxy mapping. -/
structure PySession where
cookies : List (String × String)
proxies : List (String × String)
deriving DecidableEq

/-- The credential context the processor consults: the cookie dict and
the credential session (auth.py lines 36-46). -/
structure AuthManager where
cookies : List (String × String)
session : PySession

/-- dict lookup over a string-valued mapping. -/
def lookupCookie : List (String × String) → String → Option String
| [], _ => none
| (k, v) :: rest, key => if k = key then some v else lookupCookie rest key

/-- The headers dict of _build_message_headers (lines 144-154): the
two fixed entries plus, for authenticated sends only, a cookie entry. -/
structure Headers where
content_type : String
x_fb_friendly_name : String
cookie : Option String
deriving DecidableEq

/-- MessageProcessor._build_message_headers (lines 144-154): the
cookie header carries exactly the single abra_sess cookie. -/
def build_message_headers (is_authenticated : Bool) (auth : AuthManager) : Headers :=
⟨"application/x-www-form-urlencoded",
 "useAbraSendMessageMutation",
 if is_authenticated then
   some ("abra_sess=" ++ ((lookupCookie auth.cookies "abra_sess").getD ""))
 else none⟩

/-- The variables object of _build_message_payload (lines 120-142),
keeping the fields the claims inspect; the urlencode and json.dumps
wire encoding and the constant protocol fields are elided. -/
structure Payload where
message : String
externalConversationId : Option String
offlineThreadingId : String
deriving DecidableEq

/-- Lines 106-110: an authenticated send replaces self.session with a
fresh requests.Session() (no cookies, no proxies) onto which the
credential session's proxies are copied when they are non-empty (a
fresh session's proxy mapping is empty, so the guard is
observationally the identity on the proxies). -/
def freshAuthSession (auth : AuthManager) : PySession :=
match auth.session.proxies with
| [] => ⟨[], []⟩
| ps => ⟨[], ps⟩

/-- The external and nondeterministic inputs of one logical send: the
uuid4 token and offline-threading nonce generated at attempt k, the
decoded body lines the service returns to attempt k, and the sources
oracle. -/
structure SendEnv where
freshIds : Nat → String
nonces : Nat → String
bodies : Nat → List (Option Json)
fetchOracle : Json → Except PyErr (List Json)

/-- The processor's mutable state: the two continuity identifiers plus
self.session. -/
structure ProcState where
conv : ConvState
session : PySession

/-- What one attempt put on the wire: the payload variables, the
headers and the transport session the POST was issued on. -/
structure AttemptRecord where
payload : Payload
headers : Headers
session : PySession
deriving DecidableEq

/-- Observable trace of a send: one record per attempt made, and the
sleep durations performed before each retry. -/
structure SendTrace where
records : List AttemptRecord
delays : List Nat

/-- MessageProcessor.send_message in buffered mode (lines 65-118)
composed with _retry_message (lines 258-270): an attempt assigns a
fresh conversation id when the stored one is falsy or a new
conversation was requested, builds payload and headers, isolates the
session for authenticated sends, scans the body, and either returns
the result, sleeps RETRY_DELAY and re-runs the whole send while
attempts < MAX_RETRIES, or raises. _retry_message re-invokes
send_message without new_conversation, so the flag is live only on the
first attempt. Recursion is driven structurally by a fuel argument;
send_message supplies MAX_RETRIES + 1, so attempts + fuel stays
constant at MAX_RETRIES + 1 and the fuel-exhausted branch is
unreachable (the attempts < MAX_RETRIES test is already false once
fuel reaches 1). -/
def sendLoop (auth : AuthManager) (env : SendEnv) (message : String) : Nat → Bool → Nat → ProcState → (Except PyErr EnrichedResult) × ProcState × SendTrace
| fuel, new_conversation, attempts, st =>
  let is_authenticated := (lookupCookie auth.cookies "abra_sess").isSome
  let conv0 : ConvState :=
    if pyFalsyOptStr st.conv.external_conversation_id || new_conversation then
      ⟨some (env.freshIds attempts), st.conv.offline_threading_id⟩
    else st.conv
  let payload : Payload := ⟨message, conv0.external_conversation_id, env.nonces attempts⟩
  let headers := build_message_headers is_authenticated auth
  let session := if is_authenticated then freshAuthSession auth else st.session
  let record : AttemptRecord := ⟨payload, headers, session⟩
  match handleRegularResponse env.fetchOracle (env.bodies attempts) conv0 with
  | (.ok (.result r), conv2) => (.ok r, ⟨conv2, session⟩, ⟨[record], []⟩)
  | (.ok .needsRetry, conv2) =>
    if attempts < MAX_RETRIES then
      match fuel with
      | fuel2 + 1 =>
        let rest := sendLoop auth env message fuel2 false (attempts + 1) ⟨conv2, session⟩
        (rest.1, rest.2.1, ⟨record :: rest.2.2.records, RETRY_DELAY :: rest.2.2.delays⟩)
      | 0 => (.error .retryExhausted, ⟨conv2, session⟩, ⟨[record], []⟩)
    else
      (.error .retryExhausted, ⟨conv2, session⟩, ⟨[record], []⟩)
  | (.error e, conv2) => (.error e, ⟨conv2, session⟩, ⟨[record], []⟩)

/-- MessageProcessor.send_message (buffered), entered at attempts = 0
as callers do, with enough fuel that the structural-recursion guard
never interferes with the attempts < MAX_RETRIES test of
_retry_message. -/
def send_message (auth : AuthManager) (env : SendEnv) (message : String) (new_conversation : Bool) (st : ProcState) : (Except PyErr EnrichedResult) × ProcState × SendTrace :=
sendLoop auth env message (MAX_RETRIES + 1) new_conversation 0 st

/-! ## Streaming first-line check (message_processor.py lines 166-183) -/

/-- Outcome of the streaming pre-check: either a retry is signalled
(before anything is yielded) or the untouched remaining lines are
handed to _stream_response. -/
inductive StreamCheck where
| retrySignal : StreamCheck
| proceed (rest : List (Option Json)) : StreamCheck

/-- MessageProcessor._handle_streaming_response (lines 166-183): pull
only the first line; an exhausted source (StopIteration) or an
undecodable first line (JSONDecodeError) signals retry, as does a
decoded first line whose errors list is non-empty. Only then are the
remaining lines streamed. -/
def handleStreamingResponse : List (Option Json) → Except PyErr StreamCheck
| [] => .ok .retrySignal
| none :: _ => .ok .retrySignal
| some j :: rest =>
  match j.getD "errors" (.arr []) with
  | .error e => .error e
  | .ok errs =>
    match errs.pyLen with
    | .error e => .error e
    | .ok n => if n > 0 then .ok .retrySignal else .ok (.proceed rest)

/-! ## SourceFetcher (source_fetcher.py) -/

/-- What the secondary sources request can come back with: a transport
error (requests.RequestException, including raise_for_status), a body
that is not JSON (json.JSONDecodeError from response.json()), or a
decoded body. -/
inductive FetchTransport where
| netError : FetchTransport
| badJson : FetchTransport
| ok (j : Json) : FetchTransport

/-- SourceFetcher._extract_references (source_fetcher.py lines
93-116): walk data.message.searchResults.references. Its try/except
catches KeyError and TypeError (the typeError branch below) but not
AttributeError, which a truthy non-mapping intermediate value
raises. -/
def extractReferencesBody (response_json : Json) : Except PyErr (List Json) :=
match response_json.getD "data" (.obj []) with
| .error e => .error e
| .ok d =>
  match d.getD "message" (.obj []) with
  | .error e => .error e
  | .ok message =>
    if !message.truthy then .ok []
    else
      match message.getD "searchResults" .null with
      | .error e => .error e
      | .ok searchResults =>
        if !searchResults.truthy then .ok []
        else
          match searchResults.getD "references" (.arr []) with
          | .error e => .error e
          | .ok references =>
            match references with
            | .arr l => .ok l
            | _ => .ok []

/-- The except clause of _extract_references: KeyError and TypeError
are converted to an empty list; AttributeError is not caught. -/
def extract_references (response_json : Json) : Except PyErr (List Json) :=
match extractReferencesBody response_json with
| .ok l => .ok l
| .error .typeError => .ok []
| .error e => .error e

/-- SourceFetcher.fetch_sources (lines 33-82). The Nat counts network
calls made. A falsy fetch_id, or a missing or falsy cached
access_token, returns immediately with zero calls; the try/except
around the request catches requests.RequestException,
json.JSONDecodeError and KeyError, so an AttributeError escaping
_extract_references propagates to the caller. -/
def fetch_sources (access_token : Option String) (transport : FetchTransport) (fetch_id : String) : (Except PyErr (List Json)) × Nat :=
if fetch_id == "" then (.ok [], 0)
else
  match access_token with
  | none => (.ok [], 0)
  | some t =>
    if t == "" then (.ok [], 0)
    else
      match transport with
      | .netError => (.ok [], 1)
      | .badJson => (.ok [], 1)
      | .ok j =>
        match extract_references j with
        | .ok l => (.ok l, 1)
        | .error e => (.error e, 1)

/-! ## Invariant predicates for the conversation state claims -/

/-- The invariant the spec asserts about ConversationState: both
identifiers set together or both absent. -/
def bothSetOrBothAbsent (st : ConvState) : Prop :=
(st.external_conversation_id = none ∧ st.offline_threading_id = none) ∨
(st.external_conversation_id ≠ none ∧ st.offline_threading_id ≠ none)

/-- The invariant the code actually maintains: the threading
identifier is only ever set when the conversation identifier is set
(the converse fails because send_message locally generates a
provisional conversation identifier alone). -/
def threadImpliesConv (st : ConvState) : Prop :=
st.offline_threading_id.isSome = true → st.external_conversation_id.isSome = true

/-! ## Concrete wire values used by witnesses and counterexamples -/

/-- A decoded terminal line with a composite id and a fetch handle
(example scenario 1 of the spec). -/
def lineTermEx : Json :=
Json.obj [("data", Json.obj [("node", Json.obj [("bot_response_message",
  Json.obj [("id", Json.str "CID1_TID1"),
            ("streaming_state", Json.str "OVERALL_DONE"),
            ("fetch_id", Json.str "F1")])])])]

/-- A decoded in-progress line. -/
def lineProgEx : Json :=
Json.obj [("data", Json.obj [("node", Json.obj [("bot_response_message",
  Json.obj [("id", Json.str "CID1_TID1"),
            ("streaming_state", Json.str "IN_PROGRESS")])])])]

/-- A decodable line whose data field is not a mapping: json.loads
accepts it, and the .get chain of _extract_last_response then raises
AttributeError. -/
def lineBadDataEx : Json := Json.obj [("data", Json.num 3)]

/-- A terminal line carrying no composite id. -/
def lineTermNoIdEx : Json :=
Json.obj [("data", Json.obj [("node", Json.obj [("bot_response_message",
  Json.obj [("streaming_state", Json.str "OVERALL_DONE")])])])]

/-- A sources oracle returning one reference. -/
def oracleRefEx : Json → Except PyErr (List Json) := fun _ => .ok [Json.str "ref"]

/-- A bot_response_message with one media set holding one item with a
non-empty url. -/
def brmMediaEx : Json :=
Json.obj [("imagine_card", Json.obj [("session", Json.obj [("media_sets",
  Json.arr [Json.obj [("imagine_media",
    Json.arr [Json.obj [("uri", Json.str "http://u"),
                        ("media_type", Json.str "IMAGE"),
                        ("prompt", Json.str "p")]])]])])])]

/-- A bot_response_message whose only media item lacks a url: media
sets are present and non-empty, but nothing survives extraction. -/
def brmOnlyEmptyUrlEx : Json :=
Json.obj [("imagine_card", Json.obj [("session", Json.obj [("media_sets",
  Json.arr [Json.obj [("imagine_media", Json.arr [Json.obj []])]])])])]

/-- An anonymous credential context: no abra_sess cookie. -/
def authAnonEx : AuthManager := ⟨[("datr", "d")], ⟨[], []⟩⟩

/-- An authenticated credential context whose session has cookies and
a proxy mapping. -/
def authFbEx : AuthManager :=
⟨[("abra_sess", "S")], ⟨[("c_user", "leak")], [("https", "p")]⟩⟩

/-- An environment whose every attempt returns only an in-progress
line: no terminal event is ever found. -/
def envNoTermEx : SendEnv :=
⟨fun k => String.append "U" (toString k), fun k => String.append "N" (toString k),
 fun _ => [some lineProgEx], oracleRefEx⟩

/-- An environment whose first attempt succeeds with a terminal
line. -/
def envTermEx : SendEnv :=
⟨fun _ => "U1", fun _ => "N", fun _ => [some lineTermEx], fun _ => .ok []⟩

/-- An environment whose first attempt succeeds with a terminal line
that carries no composite id. -/
def envTermNoIdEx : SendEnv :=
⟨fun _ => "U1", fun _ => "N", fun _ => [some lineTermNoIdEx], fun _ => .ok []⟩

/-! ## Helper lemmas about the underscore split -/

theorem splitOnChar_head (c : Char) (l : List Char) :
    ∃ gs, splitOnChar c l = (l.takeWhile (· != c)) :: gs := by
  induction l with
  | nil => exact ⟨[], rfl⟩
  | cons x xs ih =>
    obtain ⟨gs, hxs⟩ := ih
    by_cases hx : x = c
    · refine ⟨xs.takeWhile (· != c) :: gs, ?_⟩
      simp [splitOnChar, hxs, List.takeWhile_cons, hx]
    · refine ⟨gs, ?_⟩
      simp [splitOnChar, hxs, List.takeWhile_cons, hx]

theorem splitOnChar_of_contains (c : Char) (l : List Char) (h : l.contains c = true) :
    ∃ gs, splitOnChar c l =
      (l.takeWhile (· != c)) ::
      ((l.dropWhile (· != c)).tail.takeWhile (· != c)) :: gs := by
  induction l with
  | nil => simp at h
  | cons x xs ih =>
    by_cases hx : x = c
    · obtain ⟨gs, hxs⟩ := splitOnChar_head c xs
      refine ⟨gs, ?_⟩
      simp [splitOnChar, hxs, List.takeWhile_cons, List.dropWhile_cons, hx]
    · have hxs : xs.contains c = true := by
        simp only [List.contains_cons] at h
        rcases Bool.or_eq_true_iff.mp h with hcx | hok
        · exact absurd (beq_iff_eq.mp hcx).symm hx
        · exact hok
      obtain ⟨gs, hrec⟩ := ih hxs
      refine ⟨gs, ?_⟩
      simp [splitOnChar, hrec, List.takeWhile_cons, List.dropWhile_cons, hx]

/-! ## Claim C4: composite-id extraction -/

/-- C4 counterexample: the claim says the threading identifier becomes
everything after the first underscore, so for id "A_B_C" it should be
"B_C"; the code stores parts[1] of the full split, which is "B". -/
theorem c4_counterexample :
    updateConversationIds (Json.str "A_B_C") initialConvState = .ok ⟨some "A", some "B"⟩ ∧
    (some "B" : Option String) ≠ some "B_C" :=
⟨rfl, by decide⟩

/-- C4 amended: for a composite id string containing an underscore,
the update sets the conversation identifier to the segment before the
first underscore and the threading identifier to the segment strictly
between the first and second underscores (everything after the first
underscore only when no second underscore exists); a string without an
underscore is skipped without error. -/
theorem c4_composite_id_update :
    (∀ (s : String) (st : ConvState), s.toList.contains '_' = true →
      updateConversationIds (Json.str s) st =
        .ok ⟨some (String.mk (s.toList.takeWhile (· != '_'))),
             some (String.mk ((s.toList.dropWhile (· != '_')).tail.takeWhile (· != '_')))⟩) ∧
    (∀ (s : String) (st : ConvState), s.toList.contains '_' = false →
      updateConversationIds (Json.str s) st = .ok st) := by
  constructor
  · intro s st h
    have hne : (s != "") = true := by
      rcases eq_or_ne s "" with hs | hs
      · subst hs; simp at h
      · simpa using hs
    obtain ⟨gs, hsplit⟩ := splitOnChar_of_contains '_' s.toList h
    simp only [updateConversationIds, hne, h, Bool.and_self, if_true, pySplit, hsplit,
      List.map_cons, List.length_cons, List.getD_cons_zero, List.getD_cons_succ]
    have hlen : gs.length + 1 + 1 + ((List.map String.mk gs).length + 1 + 1) ≥ 2 := by omega
    simp
  · intro s st h
    have hc : (s != "" && s.toList.contains '_') = false := by
      rw [h, Bool.and_false]
    simp only [updateConversationIds]
    rw [hc]
    simp

/-- C4 witness: a two-segment id splits into its two parts; an id
without separator leaves the state untouched. -/
theorem c4_witness :
    updateConversationIds (Json.str "CID1_TID1") initialConvState =
      .ok ⟨some "CID1", some "TID1"⟩ ∧
    updateConversationIds (Json.str "plain") initialConvState = .ok initialConvState :=
⟨c4_composite_id_update.1 "CID1_TID1" initialConvState (by decide),
 c4_composite_id_update.2 "plain" initialConvState (by decide)⟩

/-! ## Claim C3: streaming first-line error envelope -/

/-- C3: the streaming pre-check signals retry when the line source is
empty, when the first line fails to decode, or when the first line
decodes to a mapping whose errors list is non-empty; the remaining
lines are universally quantified and untouched, so nothing further is
consumed or yielded from the failed attempt. -/
theorem c3_streaming_first_line_retry :
    handleStreamingResponse [] = .ok .retrySignal ∧
    (∀ rest, handleStreamingResponse (none :: rest) = .ok .retrySignal) ∧
    (∀ fields l rest, Json.lookup fields "errors" = some (.arr l) → l ≠ [] →
      handleStreamingResponse (some (Json.obj fields) :: rest) = .ok .retrySignal) := by
  refine ⟨rfl, fun _ => rfl, ?_⟩
  intro fields l rest hl hne
  cases l with
  | nil => exact absurd rfl hne
  | cons a as =>
    simp only [handleStreamingResponse, Json.getD, hl]
    simp [Json.pyLen]

/-- C3 witness: a first line with one error entry triggers the retry
signal even though a terminal line follows it. -/
theorem c3_witness :
    handleStreamingResponse
      [some (Json.obj [("errors", Json.arr [Json.null])]), some lineTermEx] =
      .ok .retrySignal :=
c3_streaming_first_line_retry.2.2 [("errors", Json.arr [Json.null])] [Json.null]
  [some lineTermEx] rfl (by simp)

/-! ## Claim C6: fetch_sources degradation -/

/-- C6: evaluation of fetch_sources. The zero-network fast paths hold
(empty handle, missing token), and transport errors degrade to an
empty list; but on the in-range response body whose data.message field
is a truthy non-mapping, _extract_references raises AttributeError,
which none of the except clauses catch, so fetch_sources raises to its
caller instead of returning an empty list. -/
theorem c6_fetch_sources_eval :
    fetch_sources (some "TOKEN")
      (.ok (Json.obj [("data", Json.obj [("message", Json.str "x")])])) "F1"
      = (.error .attributeError, 1) ∧
    fetch_sources (some "TOKEN") .netError "" = (.ok [], 0) ∧
    fetch_sources none .netError "F1" = (.ok [], 0) ∧
    fetch_sources (some "TOKEN") .netError "F1" = (.ok [], 1) ∧
    fetch_sources (some "TOKEN") .badJson "F1" = (.ok [], 1) :=
⟨rfl, rfl, rfl, rfl, rfl⟩

/-! ## Helper lemmas for the media extractor -/

theorem pyIter_nil_of_not_truthy (j : Json) (xs : List Json)
    (hiter : j.pyIter = .ok xs) (ht : j.truthy = false) : xs = [] := by
  cases j with
  | arr l =>
    cases l with
    | nil =>
      simp only [Json.pyIter, Except.ok.injEq] at hiter
      exact hiter.symm
    | cons x l2 => simp [Json.truthy] at ht
  | obj l =>
    cases l with
    | nil =>
      simp only [Json.pyIter, List.map_nil, Except.ok.injEq] at hiter
      exact hiter.symm
    | cons x l2 => simp [Json.truthy] at ht
  | str s =>
    have hs : s = "" := by simpa [Json.truthy] using ht
    subst hs
    have hl : ("" : String).toList = [] := rfl
    simp only [Json.pyIter, hl, List.map_nil, Except.ok.injEq] at hiter
    exact hiter.symm
  | null => simp [Json.pyIter] at hiter
  | bool b => simp [Json.pyIter] at hiter
  | num n => simp [Json.pyIter] at hiter

theorem pyIter_pyLen (j : Json) (xs : List Json) (h : j.pyIter = .ok xs) :
    j.pyLen = .ok xs.length := by
  cases j with
  | arr l =>
    simp only [Json.pyIter, Except.ok.injEq] at h
    simp [Json.pyLen, h]
  | obj l =>
    simp only [Json.pyIter, Except.ok.injEq] at h
    simp [Json.pyLen, ← h]
  | str s =>
    simp only [Json.pyIter, Except.ok.injEq] at h
    simp only [Json.pyLen, ← h, List.length_map, Except.ok.injEq]
    rfl
  | null => simp [Json.pyIter] at h
  | bool b => simp [Json.pyIter] at h
  | num n => simp [Json.pyIter] at h

theorem collectM_mem (f : Json → Except PyErr (List MediaItem)) :
    ∀ (xs : List Json) (l : List MediaItem), collectM f xs = .ok l →
      ∀ it ∈ l, ∃ x ∈ xs, ∃ lx, f x = .ok lx ∧ it ∈ lx := by
  intro xs
  induction xs with
  | nil =>
    intro l h it hit
    simp only [collectM, Except.ok.injEq] at h
    subst h
    simp at hit
  | cons x xs ih =>
    intro l h it hit
    simp only [collectM] at h
    cases hfx : f x with
    | error e => rw [hfx] at h; cases h
    | ok hx =>
      rw [hfx] at h
      cases hrest : collectM f xs with
      | error e => rw [hrest] at h; cases h
      | ok t =>
        rw [hrest] at h
        simp only [Except.ok.injEq] at h
        subst h
        rcases List.mem_append.mp hit with hmem | hmem
        · exact ⟨x, by simp, hx, hfx, hmem⟩
        · obtain ⟨y, hy, ly, hfy, hin⟩ := ih t hrest it hmem
          exact ⟨y, by simp [hy], ly, hfy, hin⟩

theorem extractFromMedia_mem (m : Json) (lm : List MediaItem)
    (h : extractFromMedia m = .ok lm) :
    ∀ it ∈ lm, it.url.truthy = true ∧ m.getD "uri" .null = .ok it.url := by
  intro it hit
  simp only [extractFromMedia] at h
  cases hu : m.getD "uri" .null with
  | error e => simp [hu] at h
  | ok url =>
    simp only [hu] at h
    cases hty : m.getD "media_type" .null with
    | error e => simp [hty] at h
    | ok ty =>
      simp only [hty] at h
      cases hp : m.getD "prompt" .null with
      | error e => simp [hp] at h
      | ok prompt =>
        simp only [hp] at h
        cases htr : url.truthy with
        | true =>
          simp only [htr, if_true, Except.ok.injEq] at h
          subst h
          simp only [List.mem_singleton] at hit
          subst hit
          exact ⟨htr, rfl⟩
        | false =>
          simp [htr] at h
          subst h
          simp at hit

theorem anyImagineMedia_of_collect (sets : List Json) (l : List MediaItem)
    (h : collectM extractFromSet sets = .ok l) (hne : l ≠ []) :
    anyImagineMedia sets = .ok true := by
  induction sets generalizing l with
  | nil =>
    simp only [collectM, Except.ok.injEq] at h
    exact absurd h.symm hne
  | cons s rest ih =>
    simp only [collectM] at h
    cases hs : extractFromSet s with
    | error e => simp [hs] at h
    | ok hitems =>
      simp only [hs] at h
      cases hr : collectM extractFromSet rest with
      | error e => simp [hr] at h
      | ok t =>
        simp only [hr, Except.ok.injEq] at h
        simp only [extractFromSet] at hs
        cases him : s.getD "imagine_media" (.arr []) with
        | error e => simp [him] at hs
        | ok im =>
          simp only [him] at hs
          cases hiter : im.pyIter with
          | error e => simp [hiter] at hs
          | ok ims =>
            simp only [hiter] at hs
            simp only [anyImagineMedia, him]
            cases htr : im.truthy with
            | true => simp [htr]
            | false =>
              have hims : ims = [] :=
                pyIter_nil_of_not_truthy im ims hiter htr
              subst hims
              simp only [collectM, Except.ok.injEq] at hs
              subst hs
              simp only [htr, Bool.false_eq_true, if_false]
              apply ih t hr
              intro ht
              exact hne (by rw [← h, ht]; rfl)

/-! ## Claim C7: media extraction shape and url filtering -/

/-- C7: a falsy media container, a falsy session, or an empty
media_sets list each yield the empty extraction with no error; and
every item of a successful extraction was built from some input media
object whose uri field is truthy (so an item with a missing or empty
url is never included). -/
theorem c7_media_extraction :
    (∀ brm ic, brm.getD "imagine_card" (.obj []) = .ok ic → ic.truthy = false →
      extract_media brm = .ok []) ∧
    (∀ brm ic ses, brm.getD "imagine_card" (.obj []) = .ok ic → ic.truthy = true →
      ic.getD "session" (.obj []) = .ok ses → ses.truthy = false →
      extract_media brm = .ok []) ∧
    (∀ brm ic ses, brm.getD "imagine_card" (.obj []) = .ok ic → ic.truthy = true →
      ic.getD "session" (.obj []) = .ok ses → ses.truthy = true →
      ses.getD "media_sets" (.arr []) = .ok (.arr []) →
      extract_media brm = .ok []) ∧
    (∀ brm l it, extract_media brm = .ok l → it ∈ l →
      it.url.truthy = true ∧ ∃ m lm, extractFromMedia m = .ok lm ∧ it ∈ lm ∧
        m.getD "uri" .null = .ok it.url) := by
  refine ⟨?_, ?_, ?_, ?_⟩
  · intro brm ic h1 h2
    simp [extract_media, h1, h2]
  · intro brm ic ses h1 h2 h3 h4
    simp [extract_media, h1, h2, h3, h4]
  · intro brm ic ses h1 h2 h3 h4 h5
    simp [extract_media, h1, h2, h3, h4, h5, Json.pyIter, collectM]
  · intro brm l it hx hit
    simp only [extract_media] at hx
    cases hic : brm.getD "imagine_card" (.obj []) with
    | error e => simp [hic] at hx
    | ok ic =>
      simp only [hic] at hx
      cases htic : ic.truthy with
      | false =>
        simp [htic] at hx
        subst hx
        simp at hit
      | true =>
        simp only [htic, Bool.not_true, Bool.false_eq_true, if_false] at hx
        cases hses : ic.getD "session" (.obj []) with
        | error e => simp [hses] at hx
        | ok ses =>
          simp only [hses] at hx
          cases htses : ses.truthy with
          | false =>
            simp [htses] at hx
            subst hx
            simp at hit
          | true =>
            simp only [htses, Bool.not_true, Bool.false_eq_true, if_false] at hx
            cases hms : ses.getD "media_sets" (.arr []) with
            | error e => simp [hms] at hx
            | ok msets =>
              simp only [hms] at hx
              cases hiter : msets.pyIter with
              | error e => simp [hiter] at hx
              | ok sets =>
                simp only [hiter] at hx
                obtain ⟨s, _, lx, hsx, hinx⟩ := collectM_mem extractFromSet sets l hx it hit
                simp only [extractFromSet] at hsx
                cases him : s.getD "imagine_media" (.arr []) with
                | error e => simp [him] at hsx
                | ok im =>
                  simp only [him] at hsx
                  cases hiter2 : im.pyIter with
                  | error e => simp [hiter2] at hsx
                  | ok ims =>
                    simp only [hiter2] at hsx
                    obtain ⟨m, _, lm, hfm, hinm⟩ := collectM_mem extractFromMedia ims lx hsx it hinx
                    obtain ⟨htr, hu⟩ := extractFromMedia_mem m lm hfm it hinm
                    exact ⟨htr, m, lm, hfm, hinm, hu⟩

/-- C7 witness: a message with no imagine_card extracts to the empty
list, and the item extracted from a one-item media set has a truthy
(non-empty) url. -/
theorem c7_witness :
    extract_media (Json.obj []) = .ok [] ∧
    (MediaItem.mk (Json.str "http://u") (Json.str "IMAGE") (Json.str "p")).url.truthy = true :=
⟨c7_media_extraction.1 (Json.obj []) (Json.obj []) rfl rfl,
 (c7_media_extraction.2.2.2 brmMediaEx
    [⟨Json.str "http://u", Json.str "IMAGE", Json.str "p"⟩]
    ⟨Json.str "http://u", Json.str "IMAGE", Json.str "p"⟩ rfl (by simp)).1⟩

/-! ## Claim C10: has_media versus extract_media -/

/-- C10: whenever extract_media returns a non-empty list has_media
returns true, but the converse fails: on an input whose only media
item lacks a url, has_media is true while extract_media is empty. -/
theorem c10_has_media_not_equiv :
    (∀ brm l, extract_media brm = .ok l → l ≠ [] → has_media brm = .ok true) ∧
    (has_media brmOnlyEmptyUrlEx = .ok true ∧ extract_media brmOnlyEmptyUrlEx = .ok []) := by
  refine ⟨?_, rfl, rfl⟩
  intro brm l hx hne
  simp only [extract_media] at hx
  cases hic : brm.getD "imagine_card" (.obj []) with
  | error e => simp [hic] at hx
  | ok ic =>
    simp only [hic] at hx
    cases htic : ic.truthy with
    | false =>
      simp [htic] at hx
      exact absurd hx hne
    | true =>
      simp only [htic, Bool.not_true, Bool.false_eq_true, if_false] at hx
      cases hses : ic.getD "session" (.obj []) with
      | error e => simp [hses] at hx
      | ok ses =>
        simp only [hses] at hx
        cases htses : ses.truthy with
        | false =>
          simp [htses] at hx
          exact absurd hx hne
        | true =>
          simp only [htses, Bool.not_true, Bool.false_eq_true, if_false] at hx
          cases hms : ses.getD "media_sets" (.arr []) with
          | error e => simp [hms] at hx
          | ok msets =>
            simp only [hms] at hx
            cases hiter : msets.pyIter with
            | error e => simp [hiter] at hx
            | ok sets =>
              simp only [hiter] at hx
              have hsets_ne : sets ≠ [] := by
                intro hemp
                subst hemp
                simp only [collectM, Except.ok.injEq] at hx
                exact hne hx.symm
              have hlen : sets.length ≠ 0 := by
                intro h0
                exact hsets_ne (List.length_eq_zero.mp h0)
              simp only [has_media, hic, htic, Bool.not_true, Bool.false_eq_true,
                if_false, hses, htses, hms, pyIter_pyLen msets sets hiter, hlen,
                hiter]
              exact anyImagineMedia_of_collect sets l hx hne

/-- C10 witness: the one-item media set with a non-empty url makes
has_media true via the forward implication. -/
theorem c10_witness : has_media brmMediaEx = .ok true :=
c10_has_media_not_equiv.1 brmMediaEx
  [⟨Json.str "http://u", Json.str "IMAGE", Json.str "p"⟩] rfl (by simp)

/-! ## Helper lemmas for the buffered scan -/

theorem processLine_ok_last (j : Json) (s s2 : ScanState)
    (h : processLine j s = .ok s2) :
    s2.last = (if isTerminalLine j then some j else s.last) := by
  simp only [processLine] at h
  cases hb : botResponseMessage j with
  | error e => simp [hb] at h
  | ok brm =>
    simp only [hb] at h
    cases hid : brm.getD "id" .null with
    | error e => simp [hid] at h
    | ok chat_id =>
      simp only [hid] at h
      cases hupd : updateConversationIds chat_id s.conv with
      | error e => simp [hupd] at h
      | ok conv =>
        simp only [hupd] at h
        cases hss : brm.getD "streaming_state" .null with
        | error e => simp [hss] at h
        | ok ss =>
          simp only [hss] at h
          simp only [isTerminalLine, hb, hss]
          cases hts : ss.isStr "OVERALL_DONE" with
          | true =>
            simp only [hts, if_true, Except.ok.injEq] at h
            rw [← h]
            simp
          | false =>
            simp only [hts, Bool.false_eq_true, if_false, Except.ok.injEq] at h
            rw [← h]
            simp

theorem scanLines_ok_last :
    ∀ (lines : List (Option Json)) (s : ScanState), (scanLines lines s).1 = .ok () →
      (scanLines lines s).2.last =
        (lines.filterMap id).foldl
          (fun acc j => if isTerminalLine j then some j else acc) s.last := by
  intro lines
  induction lines with
  | nil => intro s _; simp [scanLines]
  | cons x rest ih =>
    intro s h
    cases x with
    | none =>
      simp only [scanLines] at h ⊢
      simpa using ih s h
    | some j =>
      simp only [scanLines] at h ⊢
      cases hp : processLine j s with
      | error e => simp [hp] at h
      | ok s2 =>
        simp only [hp] at h ⊢
        have hlast := processLine_ok_last j s s2 hp
        simp only [List.filterMap_cons, id_eq, List.foldl_cons]
        rw [← hlast]
        exact ih s2 h

/-! ## Claim C1: buffered result built from the last terminal line -/

/-- C1 counterexample: the body contains a decodable OVERALL_DONE
line, yet no result built from it is returned: an earlier decodable
line whose data field is a number (not a mapping) makes the scan raise
AttributeError instead of being skipped. -/
theorem c1_counterexample :
    lastTerminalLine [some lineBadDataEx, some lineTermEx] = some lineTermEx ∧
    (handleRegularResponse oracleRefEx [some lineBadDataEx, some lineTermEx]
      initialConvState).1 = .error .attributeError :=
⟨rfl, rfl⟩

/-- C1 amended: for a buffered body whose decoded lines all scan
without exception (each decodable line is a mapping whose data, node
and bot_response_message chain behaves as _extract_last_response
expects), if some decodable line is terminal then the buffered handler
returns exactly the enriched result extracted from the last such line
(its formatted message, its sources, its media); undecodable lines
(the none entries) are skipped without error and non-terminal lines
are ignored for result selection. -/
theorem c1_buffered_result_from_last_terminal
    (oracle : Json → Except PyErr (List Json)) (lines : List (Option Json))
    (conv : ConvState) (t : Json)
    (hok : (scanLines lines ⟨conv, none⟩).1 = .ok ())
    (ht : lastTerminalLine lines = some t) :
    (handleRegularResponse oracle lines conv).1 =
      Except.map RegularOutcome.result (extractData oracle t) := by
  rcases hsc : scanLines lines ⟨conv, none⟩ with ⟨e2, s2⟩
  have he : e2 = .ok () := by rw [hsc] at hok; exact hok
  subst he
  have hlast : s2.last = some t := by
    have hfold := scanLines_ok_last lines ⟨conv, none⟩ hok
    rw [hsc] at hfold
    simp only [lastTerminalLine] at ht
    exact hfold.trans ht
  simp only [handleRegularResponse, extractLastResponse, hsc, hlast]
  cases hd : extractData oracle t with
  | ok r => simp [hd, Except.map]
  | error e => simp [hd, Except.map]

/-- C1 witness: a body with one in-progress and one terminal line
yields the result extracted from the terminal line. -/
theorem c1_witness :
    (handleRegularResponse oracleRefEx [some lineProgEx, some lineTermEx]
      initialConvState).1 =
      Except.map RegularOutcome.result (extractData oracleRefEx lineTermEx) :=
c1_buffered_result_from_last_terminal oracleRefEx [some lineProgEx, some lineTermEx]
  initialConvState lineTermEx rfl rfl

/-! ## Helper lemmas for the retry controller -/

theorem handleRegularResponse_needsRetry
    (oracle : Json → Except PyErr (List Json)) (lines : List (Option Json))
    (conv : ConvState)
    (h : (extractLastResponse lines conv).1 = .ok none) :
    handleRegularResponse oracle lines conv =
      (.ok .needsRetry, (extractLastResponse lines conv).2) := by
  rcases hel : extractLastResponse lines conv with ⟨e, conv2⟩
  rw [hel] at h
  simp only at h
  subst h
  simp [handleRegularResponse, hel]

theorem sendLoop_noTerminal (auth : AuthManager) (env : SendEnv) (msg : String)
    (hbody : ∀ k conv, (extractLastResponse (env.bodies k) conv).1 = .ok none) :
    ∀ (fuel attempts : Nat) (nc : Bool) (st : ProcState),
      attempts + fuel = MAX_RETRIES + 1 → attempts ≤ MAX_RETRIES →
      (sendLoop auth env msg fuel nc attempts st).1 = .error .retryExhausted ∧
      (sendLoop auth env msg fuel nc attempts st).2.2.records.length = fuel ∧
      (sendLoop auth env msg fuel nc attempts st).2.2.delays =
        List.replicate (fuel - 1) RETRY_DELAY := by
  intro fuel
  induction fuel with
  | zero =>
    intro attempts nc st h1 h2
    exfalso
    simp [MAX_RETRIES] at h1 h2
    omega
  | succ f ih =>
    intro attempts nc st h1 h2
    rw [sendLoop]
    rw [handleRegularResponse_needsRetry env.fetchOracle (env.bodies attempts) _
      (hbody attempts _)]
    by_cases hlt : attempts < MAX_RETRIES
    · have hf : f = (f - 1) + 1 := by
        simp [MAX_RETRIES] at h1 hlt
        omega
      have hrec := ih (attempts + 1) false
        ⟨(extractLastResponse (env.bodies attempts)
            (if pyFalsyOptStr st.conv.external_conversation_id || nc then
              ⟨some (env.freshIds attempts), st.conv.offline_threading_id⟩
            else st.conv)).2,
          if (lookupCookie auth.cookies "abra_sess").isSome then freshAuthSession auth
          else st.session⟩
        (by omega) (by simp [MAX_RETRIES] at hlt ⊢; omega)
      simp only [hlt, if_true]
      refine ⟨hrec.1, ?_, ?_⟩
      · simp only [List.length_cons, hrec.2.1]
      · simp only [hrec.2.2]
        rw [Nat.succ_sub_one]
        rw [hf, List.replicate_succ]
        simp
    · have ha : attempts = MAX_RETRIES := by omega
      have hf0 : f = 0 := by
        simp [MAX_RETRIES] at h1 ha
        omega
      subst hf0
      simp [hlt]

/-! ## Claim C2: exactly MAX_RETRIES retries at fixed delay, then raise -/

/-- C2: when every attempt's body scans cleanly to no terminal event,
the buffered send makes exactly MAX_RETRIES additional full attempts
beyond the first (MAX_RETRIES + 1 attempt records in all), sleeps
RETRY_DELAY before each retry, and raises the terminal error; no
result is returned. -/
theorem c2_retry_exhausted (auth : AuthManager) (env : SendEnv) (msg : String)
    (nc : Bool) (st : ProcState)
    (hbody : ∀ k conv, (extractLastResponse (env.bodies k) conv).1 = .ok none) :
    (send_message auth env msg nc st).1 = .error .retryExhausted ∧
    (send_message auth env msg nc st).2.2.records.length = 1 + MAX_RETRIES ∧
    (send_message auth env msg nc st).2.2.delays =
      List.replicate MAX_RETRIES RETRY_DELAY := by
  have h := sendLoop_noTerminal auth env msg hbody (MAX_RETRIES + 1) 0 nc st
    (by omega) (by omega)
  refine ⟨h.1, ?_, ?_⟩
  · rw [send_message] at *
    rw [h.2.1]
    omega
  · rw [send_message] at *
    rw [h.2.2]
    simp

/-- C2 witness: an environment whose every body is a single
in-progress line exhausts the retry budget: four attempt records,
three sleeps of three time units, and the terminal error. -/
theorem c2_witness :
    (send_message authAnonEx envNoTermEx "hi" false ⟨initialConvState, ⟨[], []⟩⟩).1 =
      .error .retryExhausted ∧
    (send_message authAnonEx envNoTermEx "hi" false
      ⟨initialConvState, ⟨[], []⟩⟩).2.2.records.length = 1 + MAX_RETRIES ∧
    (send_message authAnonEx envNoTermEx "hi" false
      ⟨initialConvState, ⟨[], []⟩⟩).2.2.delays =
      List.replicate MAX_RETRIES RETRY_DELAY :=
c2_retry_exhausted authAnonEx envNoTermEx "hi" false ⟨initialConvState, ⟨[], []⟩⟩
  (fun _ _ => rfl)

/-! ## Helper lemmas for the conversation-state invariant -/

theorem updateConversationIds_cases (cid : Json) (st st2 : ConvState)
    (h : updateConversationIds cid st = .ok st2) :
    st2 = st ∨ (st2.external_conversation_id.isSome = true ∧
      st2.offline_threading_id.isSome = true) := by
  cases cid with
  | str s =>
    simp only [updateConversationIds] at h
    by_cases hc : (s != "" && s.toList.contains '_') = true
    · simp only [hc, if_true] at h
      by_cases hlen : (pySplit s '_').length ≥ 2
      · right
        rw [if_pos hlen] at h
        simp only [Except.ok.injEq] at h
        rw [← h]
        exact ⟨rfl, rfl⟩
      · left
        rw [if_neg hlen] at h
        simp only [Except.ok.injEq] at h
        exact h.symm
    · left
      have hc2 : (s != "" && s.toList.contains '_') = false := by
        simpa using hc
      simp only [hc2, Bool.false_eq_true, if_false, Except.ok.injEq] at h
      exact h.symm
  | null =>
    left
    simp only [updateConversationIds, Json.truthy, Bool.false_eq_true, if_false,
      Except.ok.injEq] at h
    exact h.symm
  | bool b =>
    cases b with
    | true => simp [updateConversationIds, Json.truthy] at h
    | false =>
      left
      simp only [updateConversationIds, Json.truthy, Bool.false_eq_true, if_false,
        Except.ok.injEq] at h
      exact h.symm
  | num n =>
    simp only [updateConversationIds, Json.truthy] at h
    cases hn : (n != 0) with
    | true => simp [hn] at h
    | false =>
      left
      simp only [hn, Bool.false_eq_true, if_false, Except.ok.injEq] at h
      exact h.symm
  | arr l =>
    cases l with
    | nil =>
      left
      simp only [updateConversationIds, Json.truthy, Bool.false_eq_true, if_false,
        Except.ok.injEq] at h
      exact h.symm
    | cons x xs => simp [updateConversationIds, Json.truthy] at h
  | obj l =>
    cases l with
    | nil =>
      left
      simp only [updateConversationIds, Json.truthy, Bool.false_eq_true, if_false,
        Except.ok.injEq] at h
      exact h.symm
    | cons x xs => simp [updateConversationIds, Json.truthy] at h

theorem processLine_conv (j : Json) (s s2 : ScanState)
    (h : processLine j s = .ok s2) :
    s2.conv = s.conv ∨ (s2.conv.external_conversation_id.isSome = true ∧
      s2.conv.offline_threading_id.isSome = true) := by
  simp only [processLine] at h
  cases hb : botResponseMessage j with
  | error e => simp [hb] at h
  | ok brm =>
    simp only [hb] at h
    cases hid : brm.getD "id" .null with
    | error e => simp [hid] at h
    | ok chat_id =>
      simp only [hid] at h
      cases hupd : updateConversationIds chat_id s.conv with
      | error e => simp [hupd] at h
      | ok conv =>
        simp only [hupd] at h
        cases hss : brm.getD "streaming_state" .null with
        | error e => simp [hss] at h
        | ok ss =>
          simp only [hss] at h
          have hcases := updateConversationIds_cases chat_id s.conv conv hupd
          cases hts : ss.isStr "OVERALL_DONE" with
          | true =>
            simp only [hts, if_true, Except.ok.injEq] at h
            rw [← h]
            exact hcases
          | false =>
            simp only [hts, Bool.false_eq_true, if_false, Except.ok.injEq] at h
            rw [← h]
            exact hcases

theorem scanLines_conv_inv :
    ∀ (lines : List (Option Json)) (s : ScanState), threadImpliesConv s.conv →
      threadImpliesConv (scanLines lines s).2.conv := by
  intro lines
  induction lines with
  | nil => intro s hp; simpa [scanLines] using hp
  | cons x rest ih =>
    intro s hp
    cases x with
    | none => simpa [scanLines] using ih s hp
    | some j =>
      simp only [scanLines]
      cases hpl : processLine j s with
      | error e => simpa using hp
      | ok s2 =>
        apply ih
        rcases processLine_conv j s s2 hpl with heq | ⟨h1, h2⟩
        · rw [heq]; exact hp
        · exact fun _ => h1

theorem extractLastResponse_conv_inv (lines : List (Option Json)) (conv : ConvState)
    (hp : threadImpliesConv conv) :
    threadImpliesConv (extractLastResponse lines conv).2 := by
  have h := scanLines_conv_inv lines ⟨conv, none⟩ hp
  rcases hsc : scanLines lines ⟨conv, none⟩ with ⟨e, s2⟩
  rw [hsc] at h
  cases e with
  | ok u => simpa [extractLastResponse, hsc] using h
  | error e2 => simpa [extractLastResponse, hsc] using h

theorem handleRegularResponse_conv_inv (oracle : Json → Except PyErr (List Json))
    (lines : List (Option Json)) (conv : ConvState) (hp : threadImpliesConv conv) :
    threadImpliesConv (handleRegularResponse oracle lines conv).2 := by
  have h := extractLastResponse_conv_inv lines conv hp
  rcases hel : extractLastResponse lines conv with ⟨e, conv2⟩
  rw [hel] at h
  cases e with
  | error e2 => simpa [handleRegularResponse, hel] using h
  | ok o =>
    cases o with
    | none => simpa [handleRegularResponse, hel] using h
    | some t =>
      cases hd : extractData oracle t with
      | ok r => simpa [handleRegularResponse, hel, hd] using h
      | error e2 => simpa [handleRegularResponse, hel, hd] using h

theorem sendLoop_conv_inv (auth : AuthManager) (env : SendEnv) (msg : String) :
    ∀ (fuel : Nat) (nc : Bool) (attempts : Nat) (st : ProcState),
      threadImpliesConv st.conv →
      threadImpliesConv (sendLoop auth env msg fuel nc attempts st).2.1.conv := by
  intro fuel
  induction fuel with
  | zero =>
    intro nc attempts st hp
    rw [sendLoop]
    have hp0 : threadImpliesConv
        (if pyFalsyOptStr st.conv.external_conversation_id || nc then
          (⟨some (env.freshIds attempts), st.conv.offline_threading_id⟩ : ConvState)
        else st.conv) := by
      by_cases hcond : (pyFalsyOptStr st.conv.external_conversation_id || nc) = true
      · rw [if_pos hcond]; exact fun _ => rfl
      · rw [if_neg hcond]; exact hp
    have hconv := handleRegularResponse_conv_inv env.fetchOracle (env.bodies attempts)
      _ hp0
    rcases hreg : handleRegularResponse env.fetchOracle (env.bodies attempts)
        (if pyFalsyOptStr st.conv.external_conversation_id || nc then
          (⟨some (env.freshIds attempts), st.conv.offline_threading_id⟩ : ConvState)
        else st.conv) with ⟨e, conv2⟩
    rw [hreg] at hconv
    cases e with
    | error e2 => exact hconv
    | ok o =>
      cases o with
      | result r => exact hconv
      | needsRetry =>
        by_cases hlt : attempts < MAX_RETRIES
        · simp only [hlt, if_true]
          exact hconv
        · simp only [hlt, Bool.false_eq_true, if_false]
          exact hconv
  | succ f ih =>
    intro nc attempts st hp
    rw [sendLoop]
    have hp0 : threadImpliesConv
        (if pyFalsyOptStr st.conv.external_conversation_id || nc then
          (⟨some (env.freshIds attempts), st.conv.offline_threading_id⟩ : ConvState)
        else st.conv) := by
      by_cases hcond : (pyFalsyOptStr st.conv.external_conversation_id || nc) = true
      · rw [if_pos hcond]; exact fun _ => rfl
      · rw [if_neg hcond]; exact hp
    have hconv := handleRegularResponse_conv_inv env.fetchOracle (env.bodies attempts)
      _ hp0
    rcases hreg : handleRegularResponse env.fetchOracle (env.bodies attempts)
        (if pyFalsyOptStr st.conv.external_conversation_id || nc then
          (⟨some (env.freshIds attempts), st.conv.offline_threading_id⟩ : ConvState)
        else st.conv) with ⟨e, conv2⟩
    rw [hreg] at hconv
    cases e with
    | error e2 => exact hconv
    | ok o =>
      cases o with
      | result r => exact hconv
      | needsRetry =>
        by_cases hlt : attempts < MAX_RETRIES
        · simp only [hlt, if_true]
          exact ih false (attempts + 1) _ hconv
        · simp only [hlt, Bool.false_eq_true, if_false]
          exact hconv

/-! ## Claim C5: the both-set-or-both-absent invariant -/

/-- C5 counterexample: starting from the empty state, a send whose
terminal line carries no composite id leaves the locally generated
conversation identifier set while the threading identifier stays
absent, violating the both-or-neither invariant at a reachable state
(and this identifier was never assigned from any response event). -/
theorem c5_counterexample :
    (send_message authAnonEx envTermNoIdEx "hi" false
      ⟨initialConvState, ⟨[], []⟩⟩).2.1.conv = ⟨some "U1", none⟩ ∧
    ¬ bothSetOrBothAbsent ⟨some "U1", none⟩ :=
⟨rfl, by simp [bothSetOrBothAbsent]⟩

/-- C5 amended: the invariant the operations actually preserve is that
the threading identifier is set only when the conversation identifier
is set; the decoder assigns both identifiers together from the same
decoded event (terminal or not), while sends may set the conversation
identifier alone (a locally generated provisional value). -/
theorem c5_state_invariant :
    threadImpliesConv initialConvState ∧
    (∀ st, threadImpliesConv (start_new_conversation st)) ∧
    (∀ cid st st2, updateConversationIds cid st = .ok st2 →
      st2 = st ∨ (st2.external_conversation_id.isSome = true ∧
        st2.offline_threading_id.isSome = true)) ∧
    (∀ (auth : AuthManager) (env : SendEnv) (msg : String) (nc : Bool) (st : ProcState),
      threadImpliesConv st.conv →
      threadImpliesConv (send_message auth env msg nc st).2.1.conv) := by
  refine ⟨?_, ?_, updateConversationIds_cases, ?_⟩
  · intro h; cases h
  · intro st h; cases h
  · intro auth env msg nc st hp
    exact sendLoop_conv_inv auth env msg (MAX_RETRIES + 1) nc 0 st hp

/-- C5 witness: the amended invariant holds after a concrete send from
the empty state. -/
theorem c5_witness :
    threadImpliesConv (send_message authAnonEx envTermEx "hi" false
      ⟨initialConvState, ⟨[], []⟩⟩).2.1.conv :=
c5_state_invariant.2.2.2 authAnonEx envTermEx "hi" false
  ⟨initialConvState, ⟨[], []⟩⟩ (fun h => nomatch h)

/-! ## Helper lemma: the first attempt record's payload id -/

theorem sendLoop_head_payload (auth : AuthManager) (env : SendEnv) (msg : String)
    (fuel : Nat) (nc : Bool) (attempts : Nat) (st : ProcState) :
    ((sendLoop auth env msg fuel nc attempts st).2.2.records.head?.map
      (fun r => r.payload.externalConversationId)) =
    some (if pyFalsyOptStr st.conv.external_conversation_id || nc then
            some (env.freshIds attempts)
          else st.conv.external_conversation_id) := by
  rw [sendLoop]
  rcases hreg : handleRegularResponse env.fetchOracle (env.bodies attempts)
      (if pyFalsyOptStr st.conv.external_conversation_id || nc then
        (⟨some (env.freshIds attempts), st.conv.offline_threading_id⟩ : ConvState)
      else st.conv) with ⟨e, conv2⟩
  cases e with
  | error e2 =>
    simp only [List.head?, Option.map_some, Option.some.injEq]
    cases hcond : (pyFalsyOptStr st.conv.external_conversation_id || nc) <;>
      simp [hcond]
  | ok o =>
    cases o with
    | result r =>
      simp only [List.head?, Option.map_some, Option.some.injEq]
      cases hcond : (pyFalsyOptStr st.conv.external_conversation_id || nc) <;>
        simp [hcond]
    | needsRetry =>
      by_cases hlt : attempts < MAX_RETRIES
      · simp only [hlt, if_true]
        cases fuel with
        | zero =>
          simp only [List.head?, Option.map_some, Option.some.injEq]
          cases hcond : (pyFalsyOptStr st.conv.external_conversation_id || nc) <;>
            simp [hcond]
        | succ f =>
          simp only [List.head?, Option.map_some, Option.some.injEq]
          cases hcond : (pyFalsyOptStr st.conv.external_conversation_id || nc) <;>
            simp [hcond]
      · simp only [hlt, Bool.false_eq_true, if_false]
        simp only [List.head?, Option.map_some, Option.some.injEq]
        cases hcond : (pyFalsyOptStr st.conv.external_conversation_id || nc) <;>
          simp [hcond]

/-! ## Claim C8: fresh conversation identifier after reset -/

/-- C8: startNewConversation clears both identifiers; any send entered
with a falsy stored conversation identifier (in particular right after
a reset) or with new_conversation requested puts the freshly generated
token of its first attempt into the outgoing payload; and whenever the
generator's fresh token differs from the previously stored identifier
(the random-uniqueness assumption on uuid4), the payload identifier
differs from the old one. -/
theorem c8_fresh_conversation_id :
    (∀ st, start_new_conversation st = ⟨none, none⟩) ∧
    (∀ (auth : AuthManager) (env : SendEnv) (msg : String) (nc : Bool) (st : ProcState),
      (pyFalsyOptStr st.conv.external_conversation_id || nc) = true →
      ((send_message auth env msg nc st).2.2.records.head?.map
        (fun r => r.payload.externalConversationId)) = some (some (env.freshIds 0))) ∧
    (∀ (env : SendEnv) (old : String), env.freshIds 0 ≠ old →
      some (env.freshIds 0) ≠ (some old : Option String)) := by
  refine ⟨fun _ => rfl, ?_, ?_⟩
  · intro auth env msg nc st hcond
    rw [send_message]
    rw [sendLoop_head_payload auth env msg (MAX_RETRIES + 1) nc 0 st]
    rw [hcond]
    simp
  · intro env old hne
    simpa using hne

/-- C8 witness: after a reset, a concrete send puts the fresh token
"U1" into the payload, and "U1" differs from the old identifier
"OLD". -/
theorem c8_witness :
    start_new_conversation ⟨some "OLD", some "T"⟩ = ⟨none, none⟩ ∧
    ((send_message authAnonEx envTermEx "hi" false
      ⟨start_new_conversation ⟨some "OLD", some "T"⟩, ⟨[], []⟩⟩).2.2.records.head?.map
        (fun r => r.payload.externalConversationId)) = some (some "U1") ∧
    (some "U1" : Option String) ≠ some "OLD" :=
⟨c8_fresh_conversation_id.1 ⟨some "OLD", some "T"⟩,
 c8_fresh_conversation_id.2.1 authAnonEx envTermEx "hi" false
   ⟨start_new_conversation ⟨some "OLD", some "T"⟩, ⟨[], []⟩⟩ rfl,
 c8_fresh_conversation_id.2.2 envTermEx "OLD" (by decide)⟩

/-! ## Helper lemma: every authenticated attempt's headers and session -/

theorem sendLoop_auth_records (auth : AuthManager) (env : SendEnv) (msg : String)
    (v : String) (hv : lookupCookie auth.cookies "abra_sess" = some v) :
    ∀ (fuel : Nat) (nc : Bool) (attempts : Nat) (st : ProcState) (r : AttemptRecord),
      r ∈ (sendLoop auth env msg fuel nc attempts st).2.2.records →
      r.headers = ⟨"application/x-www-form-urlencoded", "useAbraSendMessageMutation",
        some ("abra_sess=" ++ v)⟩ ∧
      r.session = freshAuthSession auth := by
  have hsome : (lookupCookie auth.cookies "abra_sess").isSome = true := by
    rw [hv]; rfl
  have hhead : build_message_headers true auth =
      ⟨"application/x-www-form-urlencoded", "useAbraSendMessageMutation",
        some ("abra_sess=" ++ v)⟩ := by
    simp [build_message_headers, hv]
  intro fuel
  induction fuel with
  | zero =>
    intro nc attempts st r hr
    rw [sendLoop] at hr
    rcases hreg : handleRegularResponse env.fetchOracle (env.bodies attempts)
        (if pyFalsyOptStr st.conv.external_conversation_id || nc then
          (⟨some (env.freshIds attempts), st.conv.offline_threading_id⟩ : ConvState)
        else st.conv) with ⟨e, conv2⟩
    rw [hreg] at hr
    cases e with
    | error e2 =>
      simp only [hsome, if_true, List.mem_singleton] at hr
      subst hr
      exact ⟨hhead, rfl⟩
    | ok o =>
      cases o with
      | result r2 =>
        simp only [hsome, if_true, List.mem_singleton] at hr
        subst hr
        exact ⟨hhead, rfl⟩
      | needsRetry =>
        by_cases hlt : attempts < MAX_RETRIES
        · simp only [hlt, if_true, hsome, List.mem_singleton] at hr
          subst hr
          exact ⟨hhead, rfl⟩
        · simp only [hlt, Bool.false_eq_true, if_false, hsome, if_true,
            List.mem_singleton] at hr
          subst hr
          exact ⟨hhead, rfl⟩
  | succ f ih =>
    intro nc attempts st r hr
    rw [sendLoop] at hr
    rcases hreg : handleRegularResponse env.fetchOracle (env.bodies attempts)
        (if pyFalsyOptStr st.conv.external_conversation_id || nc then
          (⟨some (env.freshIds attempts), st.conv.offline_threading_id⟩ : ConvState)
        else st.conv) with ⟨e, conv2⟩
    rw [hreg] at hr
    cases e with
    | error e2 =>
      simp only [hsome, if_true, List.mem_singleton] at hr
      subst hr
      exact ⟨hhead, rfl⟩
    | ok o =>
      cases o with
      | result r2 =>
        simp only [hsome, if_true, List.mem_singleton] at hr
        subst hr
        exact ⟨hhead, rfl⟩
      | needsRetry =>
        by_cases hlt : attempts < MAX_RETRIES
        · simp only [hlt, if_true, hsome, List.mem_cons] at hr
          rcases hr with hr | hr
          · subst hr
            exact ⟨hhead, rfl⟩
          · exact ih false (attempts + 1) _ r hr
        · simp only [hlt, Bool.false_eq_true, if_false, hsome, if_true,
            List.mem_singleton] at hr
          subst hr
          exact ⟨hhead, rfl⟩

/-! ## Claim C9: session isolation and exact cookie header -/

/-- C9: on an authenticated send, every attempt (the first and each
retry) goes out on a transport session with an empty cookie jar
carrying exactly the credential session's proxies, and its headers are
exactly the fixed content-type, the fixed friendly-name, and a cookie
entry holding the single abra_sess cookie. -/
theorem c9_session_isolation (auth : AuthManager) (env : SendEnv) (msg : String)
    (nc : Bool) (st : ProcState) (v : String) (r : AttemptRecord)
    (hv : lookupCookie auth.cookies "abra_sess" = some v)
    (hr : r ∈ (send_message auth env msg nc st).2.2.records) :
    r.session.cookies = [] ∧ r.session.proxies = auth.session.proxies ∧
    r.headers = ⟨"application/x-www-form-urlencoded", "useAbraSendMessageMutation",
      some ("abra_sess=" ++ v)⟩ := by
  have h := sendLoop_auth_records auth env msg v hv (MAX_RETRIES + 1) nc 0 st r
    (by rwa [send_message] at hr)
  refine ⟨?_, ?_, h.1⟩
  · rw [h.2]
    cases hps : auth.session.proxies with
    | nil => simp [freshAuthSession, hps]
    | cons p ps => simp [freshAuthSession, hps]
  · rw [h.2]
    cases hps : auth.session.proxies with
    | nil => simp [freshAuthSession, hps]
    | cons p ps => simp [freshAuthSession, hps]

/-- C9 witness: the single attempt record of a concrete authenticated
send has an empty cookie jar, the credential session's proxies, and
exactly the abra_sess cookie header. -/
theorem c9_witness :
    (⟨⟨"hi", some "U1", "N"⟩,
      ⟨"application/x-www-form-urlencoded", "useAbraSendMessageMutation",
        some "abra_sess=S"⟩,
      ⟨[], [("https", "p")]⟩⟩ : AttemptRecord).session.cookies = [] ∧
    (⟨⟨"hi", some "U1", "N"⟩,
      ⟨"application/x-www-form-urlencoded", "useAbraSendMessageMutation",
        some "abra_sess=S"⟩,
      ⟨[], [("https", "p")]⟩⟩ : AttemptRecord).session.proxies = authFbEx.session.proxies ∧
    (⟨⟨"hi", some "U1", "N"⟩,
      ⟨"application/x-www-form-urlencoded", "useAbraSendMessageMutation",
        some "abra_sess=S"⟩,
      ⟨[], [("https", "p")]⟩⟩ : AttemptRecord).headers =
      ⟨"application/x-www-form-urlencoded", "useAbraSendMessageMutation",
        some ("abra_sess=" ++ "S")⟩ :=
c9_session_isolation authFbEx envTermEx "hi" false ⟨initialConvState, ⟨[], []⟩⟩ "S"
  ⟨⟨"hi", some "U1", "N"⟩,
    ⟨"application/x-www-form-urlencoded", "useAbraSendMessageMutation",
      some "abra_sess=S"⟩,
    ⟨[], [("https", "p")]⟩⟩ rfl (by decide)

end MetaAI
